import Mathlib

/-!
Verification development for the IFC-OpenWorld processing pipeline.

Shallow embedding of the asynchronous IFC-processing worker and its
services, translated from the Python sources:
  - ifc-processor/app/services/ifc_parser.py  (coordinate conversion,
    metadata resolution, range validation)
  - processor/app/services/ifc_parser.py      (the second coordinate
    converter, _to_decimal_degrees)
  - ifc-processor/app/services/s3_service.py  (S3 error mapping)
  - ifc-processor/app/services/gltf_converter.py (conversion adapter)
  - ifc-processor/app/services/database.py    (result persister)
  - ifc-processor/app/workers/ifc_processing.py (the Celery task)

Python floats are modelled as rationals (all the arithmetic the claims
touch is exact), machine errors as explicit Except/Option values, and
the Celery task as a pure function of an environment describing what
each collaborator does during one attempt.
-/

/-- A geographic angle as stored in an IFC file: either a plain decimal
value or a degrees/minutes/seconds(+sub-second) sequence. -/
inductive GeoAngle where
  | scalar (v : ℚ)
  | seq (vs : List ℚ)
deriving DecidableEq

/-- Error kinds raised as IFCParserError by
ifc-processor/app/services/ifc_parser.py; each constructor corresponds
to one raise site and carries the data its message carries. -/
inductive ParserErr where
  | noSite
  | noGeoRef
  | invalidFormat (coordType : String)
  | outOfRange (coordType : String) (value : ℚ)
  | unsupportedType (coordType : String)
deriving DecidableEq

/-- Translation of `_convert_to_decimal` from
ifc-processor/app/services/ifc_parser.py (lines 230-267).  The fourth
sequence component is treated as milliseconds: the code computes
`abs(degrees) + minutes / 60 + (seconds + milliseconds / 1000) / 3600`
and negates when `degrees < 0`. -/
def _convert_to_decimal (value : GeoAngle) (coordType : String) : Except ParserErr ℚ :=
  match value with
  | .scalar v => .ok v
  | .seq vs =>
    if vs.length < 3 then
      .error (.invalidFormat coordType)
    else
      let degrees := vs.getD 0 0
      let minutes := if vs.length > 1 then vs.getD 1 0 else 0
      let seconds := if vs.length > 2 then vs.getD 2 0 else 0
      let milliseconds := if vs.length > 3 then vs.getD 3 0 else 0
      let decimal := |degrees| + minutes / 60 + (seconds + milliseconds / 1000) / 3600
      .ok (if degrees < 0 then -decimal else decimal)

/-- Translation of `_to_decimal_degrees` from
processor/app/services/ifc_parser.py (lines 81-124).  The fourth
sequence component is treated as millionths of a second: the code
computes `abs(degrees) + minutes / 60.0 + seconds / 3600.0 +
microseconds / 3600000000.0` and negates when `degrees < 0`.  `none`
input and sequences shorter than 3 yield `none`. -/
def _to_decimal_degrees (compoundAngle : Option GeoAngle) : Option ℚ :=
  match compoundAngle with
  | none => none
  | some (.seq vs) =>
    if vs.length ≥ 3 then
      let degrees := vs.getD 0 0
      let minutes := vs.getD 1 0
      let seconds := vs.getD 2 0
      let microseconds := if vs.length > 3 then vs.getD 3 0 else 0
      let decimal := |degrees| + minutes / 60 + seconds / 3600 + microseconds / 3600000000
      some (if degrees < 0 then -decimal else decimal)
    else
      none
  | some (.scalar v) => some v

/-- An IfcPostalAddress sub-record as accessed by the parser: each
attribute may be absent/None (`none`); empty strings and empty lists are
present-but-falsy values, mirroring Python truthiness. -/
structure PostalAddress where
  addressLines : Option (List String)
  town : Option String
  country : Option String
deriving DecidableEq

/-- The attributes of the first IfcBuilding entity that
`extract_metadata_from_ifc` reads. -/
structure IfcBuilding where
  longName : Option String
  name : Option String
  description : Option String
  buildingAddress : Option PostalAddress
deriving DecidableEq

/-- The attributes of the first IfcSite entity that the parser reads. -/
structure IfcSite where
  longName : Option String
  name : Option String
  description : Option String
  siteAddress : Option PostalAddress
  refLatitude : Option GeoAngle
  refLongitude : Option GeoAngle
deriving DecidableEq

/-- The attributes of the first IfcProject entity that the parser reads. -/
structure IfcProject where
  longName : Option String
  name : Option String
deriving DecidableEq

/-- An IfcBuildingStorey entity: only its Elevation attribute is read. -/
structure IfcStorey where
  elevation : Option ℚ
deriving DecidableEq

/-- A parsed IFC file, as seen through `ifc_file.by_type`: the ordered
entity lists the parser enumerates. -/
structure IfcFile where
  buildings : List IfcBuilding
  sites : List IfcSite
  projects : List IfcProject
  storeys : List IfcStorey
deriving DecidableEq

/-- The metadata dictionary built by `extract_metadata_from_ifc`; every
field starts as None. -/
structure Metadata where
  name : Option String
  address : Option String
  city : Option String
  country : Option String
  height : Option ℚ
  floorCount : Option Nat
deriving DecidableEq

/-- Python truthiness of an optional string: absent/None and the empty
string are falsy. -/
def pyFalsyStr (o : Option String) : Bool :=
  match o with
  | none => true
  | some s => s = ""

/-- `address.AddressLines` handling shared by the building and site
blocks (ifc_parser.py lines 127-131 and 157-160): require a truthy
(non-None, non-empty) list, drop blank/whitespace-only lines, and join
the survivors with a comma-space; yields nothing when no line survives. -/
def joinAddressLines (lines : Option (List String)) : Option String :=
  match lines with
  | none => none
  | some ls =>
    if ls = [] then none
    else
      let addrLines := ls.filter (fun line => line ≠ "" ∧ line.trim ≠ "")
      if addrLines ≠ [] then some (String.intercalate ", " addrLines) else none

/-- A name candidate guard: the candidate is taken when it is truthy and
not in the given literal placeholder list (a Python `x and x not in bad`
guard); otherwise the chain falls through. -/
def pyAccept (v : Option String) (bad : List String) : Option String :=
  match v with
  | some s => if s ≠ "" ∧ s ∉ bad then some s else none
  | none => none

/-- ifc_parser.py lines 181-194 (also used at lines 216-221): Python
`os.path.basename`. -/
def pyBasename (p : String) : String :=
  match (p.splitOn "/").reverse with
  | [] => p
  | x :: _ => x

/-- `os.path.splitext(...)[0]`: the filename with its last extension
removed (no extension: unchanged). -/
def pySplitextRoot (s : String) : String :=
  let parts := s.splitOn "."
  if parts.length ≤ 1 then s else String.intercalate "." parts.dropLast

/-- ifc_parser.py lines 184-189: replace separators with spaces, then
sequentially strip each known noise word from the front (case-insensitive
comparison, slicing the original string, then stripping whitespace). -/
def cleanFilenameWords (base : String) : String :=
  let spaced := (base.replace "_" " ").replace "-" " "
  ["tmp", "temp", "ifc", "file"].foldl
    (fun acc p => if acc.toLower.startsWith p then (acc.drop p.length).trim else acc)
    spaced

/-- ifc_parser.py lines 179-194: the filename-derived fallback name,
used when no entity supplied a name. -/
def filenameFallbackName (filePath : String) : String :=
  let nameFromFile := cleanFilenameWords (pySplitextRoot (pyBasename filePath))
  if nameFromFile ≠ "" ∧ nameFromFile.length > 3 then nameFromFile else "Building"

/-- The empty metadata dictionary initialized at ifc_parser.py lines
100-107. -/
def emptyMetadata : Metadata :=
  { name := none, address := none, city := none, country := none,
    height := none, floorCount := none }

/-- ifc_parser.py lines 124-136: the BuildingAddress sub-block of the
Priority 1 block — address from the joined lines, city from Town,
country from Country, each only when its source value is truthy. -/
def buildingAddrBlock (building : IfcBuilding) (md : Metadata) : Metadata :=
  match building.buildingAddress with
  | none => md
  | some address =>
    let md :=
      match joinAddressLines address.addressLines with
      | some a => { md with address := some a }
      | none => md
    let md :=
      match pyAccept address.town [] with
      | some t => { md with city := some t }
      | none => md
    match pyAccept address.country [] with
    | some c => { md with country := some c }
    | none => md

/-- ifc_parser.py lines 109-136 (Priority 1 block): name from the first
IfcBuilding's LongName / Name / Description (the first two filtered
against the literal list [Default, default, empty]), then the
BuildingAddress sub-block. -/
def buildingStage (f : IfcFile) (md : Metadata) : Metadata :=
  match f.buildings with
  | [] => md
  | building :: _ =>
    let md :=
      match pyAccept building.longName ["Default", "default", ""] with
      | some n => { md with name := some n }
      | none =>
        match pyAccept building.name ["Default", "default", ""] with
        | some n => { md with name := some n }
        | none =>
          match pyAccept building.description [] with
          | some n => { md with name := some n }
          | none => md
    buildingAddrBlock building md

/-- ifc_parser.py lines 154-165: the SiteAddress sub-block of the
Priority 2 block — it runs only while the address is still falsy, and
city and country are each taken only while still falsy. -/
def siteAddrBlock (site : IfcSite) (md : Metadata) : Metadata :=
  if pyFalsyStr md.address then
    match site.siteAddress with
    | none => md
    | some address =>
      let md :=
        match joinAddressLines address.addressLines with
        | some a => { md with address := some a }
        | none => md
      let md :=
        if pyFalsyStr md.city then
          match pyAccept address.town [] with
          | some t => { md with city := some t }
          | none => md
        else md
      if pyFalsyStr md.country then
        match pyAccept address.country [] with
        | some c => { md with country := some c }
        | none => md
      else md
  else md

/-- ifc_parser.py lines 138-165 (Priority 2 block): runs only while the
name is still falsy; name from the first IfcSite's LongName / Name /
Description (with the site-specific placeholder lists), then the nested
SiteAddress sub-block. -/
def siteStage (f : IfcFile) (md : Metadata) : Metadata :=
  if pyFalsyStr md.name then
    match f.sites with
    | [] => md
    | site :: _ =>
      let md :=
        match pyAccept site.longName ["Default", "default", "environment - site", ""] with
        | some n => { md with name := some n }
        | none =>
          match pyAccept site.name ["Default", "default", "environment - site", "Site", ""] with
          | some n => { md with name := some n }
          | none =>
            match pyAccept site.description [] with
            | some n => { md with name := some n }
            | none => md
      siteAddrBlock site md
  else md

/-- ifc_parser.py lines 167-176 (Priority 3 block): runs only while the
name is still falsy; the first IfcProject's LongName (no placeholder
filter) else its Name filtered against [Default, default, Project,
empty]. -/
def projectStage (f : IfcFile) (md : Metadata) : Metadata :=
  if pyFalsyStr md.name then
    match f.projects with
    | [] => md
    | project :: _ =>
      match pyAccept project.longName [] with
      | some n => { md with name := some n }
      | none =>
        match pyAccept project.name ["Default", "default", "Project", ""] with
        | some n => { md with name := some n }
        | none => md
  else md

/-- ifc_parser.py lines 178-194 (Priority 4 block): runs only while the
name is still falsy; derives the name from the file path, falling back
to the literal string Building. -/
def filenameStage (filePath : String) (md : Metadata) : Metadata :=
  if pyFalsyStr md.name then { md with name := some (filenameFallbackName filePath) }
  else md

/-- Python `max(list)` for a non-empty list (0 on empty, unreached). -/
def listMax (l : List ℚ) : ℚ :=
  match l with
  | [] => 0
  | x :: xs => xs.foldl max x

/-- Python `min(list)` for a non-empty list (0 on empty, unreached). -/
def listMin (l : List ℚ) : ℚ :=
  match l with
  | [] => 0
  | x :: xs => xs.foldl min x

/-- Python banker's rounding of a rational to the nearest integer
(ties to the even integer), as used by `round`. -/
def roundHalfEven (x : ℚ) : ℤ :=
  let f := ⌊x⌋
  let r := x - f
  if r < 1 / 2 then f
  else if 1 / 2 < r then f + 1
  else if f % 2 = 0 then f else f + 1

/-- Python `round(x, 2)`. -/
def pyRound2 (x : ℚ) : ℚ := (roundHalfEven (x * 100) : ℚ) / 100

/-- ifc_parser.py lines 196-208: floorCount is set only when at least
one storey exists; the height is set to the rounded max-min spread of
the non-None elevations only when more than one elevation is known. -/
def storeyStage (f : IfcFile) (md : Metadata) : Metadata :=
  match f.storeys with
  | [] => md
  | _ :: _ =>
    let md := { md with floorCount := some f.storeys.length }
    let elevations : List ℚ := f.storeys.filterMap (fun s => s.elevation)
    if elevations ≠ [] ∧ elevations.length > 1 then
      { md with height := some (pyRound2 (listMax elevations - listMin elevations)) }
    else md

/-- Translation of `extract_metadata_from_ifc` from
ifc-processor/app/services/ifc_parser.py (lines 80-211): the stages run
in source order over the initially-empty dictionary.  The function is
total: it never raises (the source swallows elevation failures and has
a catch-all fallback). -/
def extract_metadata_from_ifc (f : IfcFile) (filePath : String) : Metadata :=
  storeyStage f (filenameStage filePath (projectStage f (siteStage f (buildingStage f emptyMetadata))))

/-- The name candidates contributed by the first IfcBuilding, in source
priority order, each with the placeholder list its guard checks. -/
def buildingCandidates (f : IfcFile) : List (Option String × List String) :=
  match f.buildings with
  | [] => []
  | b :: _ =>
    [(b.longName, ["Default", "default", ""]),
     (b.name, ["Default", "default", ""]),
     (b.description, [])]

/-- The name candidates contributed by the first IfcSite. -/
def siteCandidates (f : IfcFile) : List (Option String × List String) :=
  match f.sites with
  | [] => []
  | s :: _ =>
    [(s.longName, ["Default", "default", "environment - site", ""]),
     (s.name, ["Default", "default", "environment - site", "Site", ""]),
     (s.description, [])]

/-- The name candidates contributed by the first IfcProject. -/
def projectCandidates (f : IfcFile) : List (Option String × List String) :=
  match f.projects with
  | [] => []
  | p :: _ =>
    [(p.longName, []),
     (p.name, ["Default", "default", "Project", ""])]

/-- All entity name candidates in resolution priority order:
Building long/short/description, then Site, then Project. -/
def nameCandidates (f : IfcFile) : List (Option String × List String) :=
  buildingCandidates f ++ siteCandidates f ++ projectCandidates f

/-- The first candidate accepted by its guard, scanning in order. -/
def firstAcceptedName : List (Option String × List String) → Option String
  | [] => none
  | (v, bad) :: rest =>
    match pyAccept v bad with
    | some s => some s
    | none => firstAcceptedName rest

/-- The address/city/country fields of a metadata record. -/
def addrTriple (md : Metadata) : Option String × Option String × Option String :=
  (md.address, md.city, md.country)

/-- The address/city/country derived from one IfcBuilding's postal
address sub-record alone. -/
def buildingAddrTripleOf (b : IfcBuilding) : Option String × Option String × Option String :=
  match b.buildingAddress with
  | none => (none, none, none)
  | some a => (joinAddressLines a.addressLines, pyAccept a.town [], pyAccept a.country [])

/-- The address/city/country derived from the first IfcBuilding's
postal address sub-record alone. -/
def buildingAddrTriple (f : IfcFile) : Option String × Option String × Option String :=
  match f.buildings with
  | [] => (none, none, none)
  | b :: _ => buildingAddrTripleOf b

/-- The per-field fallback one IfcSite applies to the triple left by
the building block: the whole sub-record is consulted only when the
address is still falsy, and then city and country are each taken from
the site only when still falsy — so one record can mix fields from
both entities. -/
def siteFieldMergeOf (bt : Option String × Option String × Option String) (s : IfcSite) :
    Option String × Option String × Option String :=
  match bt with
  | (a0, c0, k0) =>
    if pyFalsyStr a0 then
      match s.siteAddress with
      | none => (a0, c0, k0)
      | some addr =>
        let a1 := match joinAddressLines addr.addressLines with
                  | some j => some j
                  | none => a0
        let c1 := if pyFalsyStr c0 then
                    match pyAccept addr.town [] with
                    | some t => some t
                    | none => c0
                  else c0
        let k1 := if pyFalsyStr k0 then
                    match pyAccept addr.country [] with
                    | some c => some c
                    | none => k0
                  else k0
        (a1, c1, k1)
    else (a0, c0, k0)

/-- The per-field fallback of the first IfcSite (identity when there is
no site). -/
def siteFieldMerge (bt : Option String × Option String × Option String) (f : IfcFile) :
    Option String × Option String × Option String :=
  match f.sites with
  | [] => bt
  | s :: _ => siteFieldMergeOf bt s

/-- The address/city/country triple the parser actually produces: the
building triple, merged field-wise with the site sub-record only when
the building contributed no name. -/
def resolvedAddrTriple (f : IfcFile) : Option String × Option String × Option String :=
  let bt := buildingAddrTriple f
  if pyFalsyStr (firstAcceptedName (buildingCandidates f)) then siteFieldMerge bt f else bt

/-- Translation of `extract_coordinates_from_ifc` from
ifc-processor/app/services/ifc_parser.py (lines 18-77): first IfcSite,
RefLatitude/RefLongitude both required, each converted by
`_convert_to_decimal`, then the latitude range is checked and then the
longitude range, both inclusive. -/
def extract_coordinates_from_ifc (f : IfcFile) : Except ParserErr (ℚ × ℚ) :=
  match f.sites with
  | [] => .error .noSite
  | site :: _ =>
    match site.refLatitude, site.refLongitude with
    | some refLat, some refLon =>
      match _convert_to_decimal refLat "latitude" with
      | .error e => .error e
      | .ok latitude =>
        match _convert_to_decimal refLon "longitude" with
        | .error e => .error e
        | .ok longitude =>
          if ¬(-90 ≤ latitude ∧ latitude ≤ 90) then .error (.outOfRange "latitude" latitude)
          else if ¬(-180 ≤ longitude ∧ longitude ≤ 180) then .error (.outOfRange "longitude" longitude)
          else .ok (latitude, longitude)
    | _, _ => .error .noGeoRef

/-- A minimal parsed file holding one site with the two reference
angles, used to exercise the validation step. -/
def mkCoordFile (rlat rlon : GeoAngle) : IfcFile :=
  { buildings := [],
    sites := [{ longName := none, name := some "Site", description := none,
                siteAddress := none, refLatitude := some rlat, refLongitude := some rlon }],
    projects := [], storeys := [] }

/-- The error code carried by a boto3 ClientError response. -/
inductive S3ClientCode where
  | noSuchKey
  | accessDenied
  | otherCode (c : String)
deriving DecidableEq

/-- The ways the underlying boto3 download call can behave. -/
inductive DownloadBehavior where
  | ok
  | clientError (code : S3ClientCode)
  | exn (msg : String)
deriving DecidableEq

/-- The single S3Error exception class of s3_service.py; the
constructors record which raise site produced it and the message data
that site interpolates. -/
inductive S3Err where
  | fileNotFound (s3Key : String)
  | accessDenied (s3Key : String)
  | downloadFailed (msg : String)
  | unexpected (msg : String)
  | uploadFailed (msg : String)
  | localFileNotFound (path : String)
deriving DecidableEq

/-- The message text of an S3Err, as built by s3_service.py. -/
def s3ErrMsg (e : S3Err) : String :=
  match e with
  | .fileNotFound k => "File not found in S3: " ++ k
  | .accessDenied k => "Access denied to S3 file: " ++ k
  | .downloadFailed m => "Failed to download from S3: " ++ m
  | .unexpected m => "Unexpected error: " ++ m
  | .uploadFailed m => "Failed to upload to S3: " ++ m
  | .localFileNotFound p => "Local file not found: " ++ p

/-- Translation of `download_file_from_s3` from
ifc-processor/app/services/s3_service.py (lines 34-71): a ClientError
with code NoSuchKey or AccessDenied is re-raised as an S3Error of the
corresponding kind, any other ClientError and any other exception are
wrapped as S3Error too — every failure surfaces as the same exception
class. -/
def download_file_from_s3 (behavior : DownloadBehavior) (s3Key : String) : Except S3Err Unit :=
  match behavior with
  | .ok => .ok ()
  | .clientError .noSuchKey => .error (.fileNotFound s3Key)
  | .clientError .accessDenied => .error (.accessDenied s3Key)
  | .clientError (.otherCode c) => .error (.downloadFailed c)
  | .exn m => .error (.unexpected m)

/-- The ways the IfcConvert subprocess invocation can end
(gltf_converter.py lines 128-172). -/
inductive SubprocessBehavior where
  | completes (returncode : ℤ)
  | timesOut
  | notFound
  | raises (msg : String)
deriving DecidableEq

/-- Translation of `_use_ifcconvert` from gltf_converter.py (lines
111-172): true only when the process exits with code 0 and the output
file exists; non-zero exit, the 5-minute timeout, a missing IfcConvert
binary, and any other exception all yield false. -/
def _use_ifcconvert (sub : SubprocessBehavior) (outputExists : Bool) : Bool :=
  match sub with
  | .completes rc => if rc = 0 then (if outputExists then true else false) else false
  | .timesOut => false
  | .notFound => false
  | .raises _ => false

/-- Environment describing one conversion attempt: what the filesystem
and the external tool do. -/
structure ConvEnv where
  inPath : String
  inputExists : Bool
  openRaises : Option String
  sub : SubprocessBehavior
  outputExists : Bool
  outPath : String
  uploadErr : Option S3Err
  fileSizeMb : ℚ
  statRaises : Bool
deriving DecidableEq

/-- Translation of `convert_ifc_to_gltf` from gltf_converter.py (lines
26-75): returns the Python triple (success, gltf_path, error); every
exception inside is caught and degraded to (False, None, message). -/
def convert_ifc_to_gltf (e : ConvEnv) : Bool × Option String × Option String :=
  if e.inputExists = false then
    (false, none, some ("Input file not found: " ++ e.inPath))
  else
    match e.openRaises with
    | some m => (false, none, some m)
    | none =>
      if _use_ifcconvert e.sub e.outputExists then (true, some e.outPath, none)
      else (false, none, some "IfcConvert failed")

/-- Translation of `get_model_metadata` from gltf_converter.py (lines
174-188): the (file_size_mb, format) pair read from the dict, which is
empty when os.path.getsize raised — then `.get('file_size_mb')` is None
and `.get('format', 'glb')` is the default. -/
def get_model_metadata (e : ConvEnv) (gltfPath : String) : Option ℚ × String :=
  if e.statRaises then (none, "glb")
  else (some (pyRound2 e.fileSizeMb), if gltfPath.endsWith ".glb" then "glb" else "gltf")

/-- What Step 4 of the worker leaves behind (ifc_processing.py lines
85-124): the model_url / model_size_mb / model_format variables passed
on to Step 5, and whether os.unlink was reached for the local glTF
file. -/
structure ConvStepResult where
  modelUrl : Option String
  modelSizeMb : Option ℚ
  modelFormat : Option String
  gltfUnlinked : Bool
deriving DecidableEq

/-- Translation of Step 4 of `process_ifc_file` (ifc_processing.py
lines 85-124).  On a successful conversion the metadata variables are
assigned, then the upload runs: if it raises, control jumps to the
step-local `except Exception` handler, so model_url is never assigned
and os.unlink(gltf_path) is never reached; only after a successful
upload is the local artifact deleted.  Conversion failure leaves all
variables None.  No outcome aborts the task. -/
def conversionStep (fileId : String) (e : ConvEnv) : ConvStepResult :=
  match convert_ifc_to_gltf e with
  | (true, some gltfPath, _) =>
    let md := get_model_metadata e gltfPath
    let modelSizeMb := md.1
    let modelFormat := md.2
    match e.uploadErr with
    | some _ => { modelUrl := none, modelSizeMb := modelSizeMb,
                  modelFormat := some modelFormat, gltfUnlinked := false }
    | none => { modelUrl := some ("/models/" ++ fileId ++ "." ++ modelFormat),
                modelSizeMb := modelSizeMb, modelFormat := some modelFormat,
                gltfUnlinked := true }
  | _ => { modelUrl := none, modelSizeMb := none, modelFormat := none, gltfUnlinked := false }

/-- The exception classes distinguished by the worker's except clauses. -/
inductive PyExn where
  | s3Error (e : S3Err)
  | ifcParserError (e : ParserErr)
  | databaseError (msg : String)
  | typeError (msg : String)
deriving DecidableEq

/-- The message text of an IFCParserError, as built by ifc_parser.py. -/
def parserErrMsg (e : ParserErr) : String :=
  match e with
  | .noSite => "No IfcSite found in IFC file"
  | .noGeoRef => "This IFC file does not contain geographic coordinates (RefLatitude/RefLongitude)."
  | .invalidFormat t => "Invalid " ++ t ++ " format"
  | .outOfRange t _ => "Invalid " ++ t
  | .unsupportedType t => "Unsupported " ++ t ++ " format"

/-- The terminal result of one execution of the Celery task body:
either the returned dictionary (status completed, or the status failed
dictionary returned for parser errors), or `raise self.retry(...)` with
its countdown. -/
inductive TaskOutcome where
  | completed (fileId : String) (latitude longitude : ℚ) (metadata : Metadata)
  | failedResult (fileId : String) (errorMsg : String)
  | retry (exn : PyExn) (countdown : Nat)
deriving DecidableEq

/-- `max_retries=3` from the task decorator (ifc_processing.py line 39). -/
def process_ifc_file_max_retries : Nat := 3

/-- `default_retry_delay=60` from the task decorator (line 40). -/
def process_ifc_file_default_retry_delay : Nat := 60

/-- The parameter names of `update_processing_result` as defined in
ifc-processor/app/services/database.py (lines 38-43). -/
def updateProcessingResultParams : List String :=
  ["file_id", "latitude", "longitude", "metadata"]

/-- The keyword-argument names the worker passes to
`update_processing_result` at ifc_processing.py lines 129-137, beyond
the four positional arguments. -/
def workerDbCallKwargs : List String :=
  ["model_url", "model_size_mb", "model_format"]

/-- The keyword arguments of the Step-5 call that the callee's
signature does not accept.  Python raises TypeError at the call site
when this list is non-empty, before the callee body runs. -/
def unexpectedDbCallKwargs : List String :=
  workerDbCallKwargs.filter (fun k => ¬ updateProcessingResultParams.contains k)

/-- The TypeError message Python produces for the Step-5 call. -/
def dbCallTypeErrorMsg : String :=
  "update_processing_result() got an unexpected keyword argument " ++
    (unexpectedDbCallKwargs.headD "")

/-- Everything the collaborators do during one attempt of the task. -/
structure TaskEnv where
  download : DownloadBehavior
  file : IfcFile
  localPath : String
  conv : ConvEnv
deriving DecidableEq

/-- The observable result of one attempt: the outcome, the error
message persisted by `mark_processing_failed` (if called), and what the
conversion step did (if reached). -/
structure TaskResult where
  outcome : TaskOutcome
  markedFailed : Option String
  convStep : Option ConvStepResult
deriving DecidableEq

/-- Translation of `process_ifc_file` from
ifc-processor/app/workers/ifc_processing.py (lines 42-196).
Step 1 downloads (S3Error: mark failed, then `raise self.retry` with
countdown 60 — every S3 error kind takes this path).  Step 2 extracts
and validates coordinates (IFCParserError: mark failed and return the
status-failed dictionary without retrying).  Step 3 extracts metadata
(total).  Step 4 is the best-effort conversion.  Step 5 calls
`update_processing_result` with three keyword arguments its signature
does not accept, so when any such kwarg exists Python raises TypeError
there; the catch-all handler marks the file failed and retries with
countdown 60.  Only if the call were accepted would the completed
dictionary be returned. -/
def process_ifc_file (fileId : String) (s3Key : String) (env : TaskEnv) : TaskResult :=
  match download_file_from_s3 env.download s3Key with
  | .error e =>
    let errorMsg := "S3 download error: " ++ s3ErrMsg e
    { outcome := .retry (.s3Error e) 60, markedFailed := some errorMsg, convStep := none }
  | .ok () =>
    match extract_coordinates_from_ifc env.file with
    | .error pe =>
      let errorMsg := "IFC parsing error: " ++ parserErrMsg pe
      { outcome := .failedResult fileId errorMsg, markedFailed := some errorMsg,
        convStep := none }
    | .ok (latitude, longitude) =>
      let metadata := extract_metadata_from_ifc env.file env.localPath
      let conv := conversionStep fileId env.conv
      if unexpectedDbCallKwargs ≠ [] then
        let errorMsg := "Unexpected error: " ++ dbCallTypeErrorMsg
        { outcome := .retry (.typeError dbCallTypeErrorMsg) 60,
          markedFailed := some errorMsg, convStep := some conv }
      else
        { outcome := .completed fileId latitude longitude metadata,
          markedFailed := none, convStep := some conv }

/-- Whether a task outcome is the status-completed dictionary. -/
def TaskOutcome.isCompleted : TaskOutcome → Bool
  | .completed _ _ _ _ => true
  | _ => false

/-- A row of the ifc_files table (the columns the persister touches). -/
structure FileRow where
  id : String
  processingStatus : String
  errorMessage : Option String
deriving DecidableEq

/-- A row of the buildings table as inserted by the persister; the
geography column holds the point arguments in the order the SQL passes
them — ST_MakePoint(longitude, latitude) — plus the SRID. -/
structure BuildingRow where
  id : Nat
  ifcFileId : String
  name : String
  address : Option String
  city : Option String
  country : Option String
  height : Option ℚ
  floorCount : Option Nat
  pointX : ℚ
  pointY : ℚ
  srid : Nat
deriving DecidableEq

/-- The durable database: the two tables and the next generated
building id. -/
structure Database where
  ifcFiles : List FileRow
  buildings : List BuildingRow
  nextBuildingId : Nat
deriving DecidableEq

/-- A psycopg2 connection: the durable state it reads from, the
transaction-local draft its cursor writes to, and whether it is open. -/
structure Conn where
  durable : Database
  draft : Database
  isOpen : Bool
deriving DecidableEq

/-- conn.commit(): the draft becomes durable. -/
def connCommit (c : Conn) : Conn := { c with durable := c.draft }

/-- conn.rollback(): the draft is discarded. -/
def connRollback (c : Conn) : Conn := { c with draft := c.durable }

/-- conn.close(). -/
def connClose (c : Conn) : Conn := { c with isOpen := false }

/-- The UPDATE of database.py lines 64-72: set processing_status to
completed on the row whose id matches. -/
def markFileCompleted (fileId : String) (r : FileRow) : FileRow :=
  if r.id = fileId then { r with processingStatus := "completed" } else r

/-- Executing the UPDATE statement on the connection's draft. -/
def execMarkCompleted (c : Conn) (fileId : String) : Conn :=
  { c with draft := { c.draft with ifcFiles := c.draft.ifcFiles.map (markFileCompleted fileId) } }

/-- The row built by the INSERT of database.py lines 77-115: the name
defaults to the literal Unknown Building, and the point is
ST_SetSRID(ST_MakePoint(longitude, latitude), 4326). -/
def mkBuildingRow (bid : Nat) (fileId : String) (lat lon : ℚ) (md : Metadata) : BuildingRow :=
  { id := bid, ifcFileId := fileId, name := md.name.getD "Unknown Building",
    address := md.address, city := md.city, country := md.country,
    height := md.height, floorCount := md.floorCount,
    pointX := lon, pointY := lat, srid := 4326 }

/-- Executing the INSERT ... RETURNING id statement on the draft: the
new row is appended and the generated id is returned to the cursor. -/
def execInsertBuilding (c : Conn) (fileId : String) (lat lon : ℚ) (md : Metadata) : Conn × Nat :=
  let bid := c.draft.nextBuildingId
  ({ c with draft := { c.draft with
       buildings := c.draft.buildings ++ [mkBuildingRow bid fileId lat lon md],
       nextBuildingId := bid + 1 } }, bid)

/-- Which database call, if any, raises psycopg2.Error (or, for
connect, DatabaseError) during the attempt. -/
inductive DbFailPoint where
  | connect
  | execUpdate
  | execInsert
  | commit
deriving DecidableEq

/-- The observable result of `update_processing_result`: the Python
return-or-raise (the function returns None on success and raises
DatabaseError otherwise), the building id fetched from the INSERT (if
that statement ran), the durable database afterwards, and whether the
connection ended closed. -/
structure DbCallResult where
  res : Except String Unit
  fetchedBuildingId : Option Nat
  finalDb : Database
  connReleased : Bool

/-- Translation of `update_processing_result` from
ifc-processor/app/services/database.py (lines 38-130): connect; UPDATE
the file row to completed; INSERT exactly one building row RETURNING
its id; fetch the id; commit.  Any psycopg2.Error rolls the transaction
back and is re-raised as DatabaseError; the finally block closes the
connection on every exit path (a connect failure leaves conn None, so
there is nothing to close). -/
def update_processing_result (failAt : Option DbFailPoint) (db : Database)
    (fileId : String) (lat lon : ℚ) (md : Metadata) : DbCallResult :=
  if failAt = some .connect then
    { res := .error "Failed to connect to database", fetchedBuildingId := none,
      finalDb := db, connReleased := true }
  else
    let c0 : Conn := { durable := db, draft := db, isOpen := true }
    if failAt = some .execUpdate then
      let c := connClose (connRollback c0)
      { res := .error "Failed to update database: update", fetchedBuildingId := none,
        finalDb := c.durable, connReleased := !c.isOpen }
    else
      let c1 := execMarkCompleted c0 fileId
      if failAt = some .execInsert then
        let c := connClose (connRollback c1)
        { res := .error "Failed to update database: insert", fetchedBuildingId := none,
          finalDb := c.durable, connReleased := !c.isOpen }
      else
        let r := execInsertBuilding c1 fileId lat lon md
        if failAt = some .commit then
          let c := connClose (connRollback r.1)
          { res := .error "Failed to update database: commit", fetchedBuildingId := some r.2,
            finalDb := c.durable, connReleased := !c.isOpen }
        else
          let c := connClose (connCommit r.1)
          { res := .ok (), fetchedBuildingId := some r.2,
            finalDb := c.durable, connReleased := !c.isOpen }

/-- A well-formed parsed file with in-range scalar coordinates. -/
def sampleCoordFile : IfcFile := mkCoordFile (.scalar 45) (.scalar 7)

/-- A conversion environment in which every collaborator succeeds. -/
def convOkEnv : ConvEnv :=
  { inPath := "/tmp/in.ifc", inputExists := true, openRaises := none,
    sub := .completes 0, outputExists := true, outPath := "/tmp/out.glb",
    uploadErr := none, fileSizeMb := 2, statRaises := false }

/-- The successful environment except the IfcConvert binary is not
installed (subprocess.run raises FileNotFoundError). -/
def convToolMissingEnv : ConvEnv := { convOkEnv with sub := .notFound }

/-- The successful environment except the artifact upload raises
S3Error. -/
def convUploadFailEnv : ConvEnv :=
  { convOkEnv with uploadErr := some (.uploadFailed "connection reset") }

/-- An attempt whose retrieval fails with AccessDenied. -/
def taskEnvAccessDenied : TaskEnv :=
  { download := .clientError .accessDenied, file := sampleCoordFile,
    localPath := "/tmp/tmplocal.ifc", conv := convOkEnv }

/-- An attempt whose retrieval fails with NoSuchKey. -/
def taskEnvNotFound : TaskEnv :=
  { download := .clientError .noSuchKey, file := sampleCoordFile,
    localPath := "/tmp/tmplocal.ifc", conv := convOkEnv }

/-- An attempt in which every collaborator succeeds. -/
def taskEnvConvOk : TaskEnv :=
  { download := .ok, file := sampleCoordFile,
    localPath := "/tmp/tmplocal.ifc", conv := convOkEnv }

/-- An attempt in which everything succeeds except that the conversion
tool is not installed. -/
def taskEnvToolMissing : TaskEnv :=
  { download := .ok, file := sampleCoordFile,
    localPath := "/tmp/tmplocal.ifc", conv := convToolMissingEnv }

/-- A file whose Building entity supplies a usable name and no postal
address while the Site entity carries a full postal address. -/
def c5NamedBuildingFile : IfcFile :=
  { buildings := [{ longName := some "Tower X", name := none, description := none,
                    buildingAddress := none }],
    sites := [{ longName := none, name := none, description := none,
                siteAddress := some { addressLines := some ["Via Roma 1"],
                                      town := some "Rome", country := some "Italy" },
                refLatitude := none, refLongitude := none }],
    projects := [], storeys := [] }

/-- A file whose Building entity has no usable name and a postal
address carrying only a town, while the Site entity carries a name and
a postal address with a country: field-wise fallback mixes the two. -/
def c5MergeFile : IfcFile :=
  { buildings := [{ longName := none, name := none, description := none,
                    buildingAddress := some { addressLines := none,
                                              town := some "Rome", country := none } }],
    sites := [{ longName := some "Campus", name := none, description := none,
                siteAddress := some { addressLines := none,
                                      town := some "Paris", country := some "Italy" },
                refLatitude := none, refLongitude := none }],
    projects := [], storeys := [] }

/-- A file whose Building long name is the placeholder word in upper
case, with a usable short name. -/
def c7UppercaseDefaultFile : IfcFile :=
  { buildings := [{ longName := some "DEFAULT", name := some "Tower X", description := none,
                    buildingAddress := none }],
    sites := [], projects := [], storeys := [] }

/-- A file whose Building long name is exactly the placeholder Default,
with a usable short name. -/
def c7TowerFile : IfcFile :=
  { buildings := [{ longName := some "Default", name := some "Tower X", description := none,
                    buildingAddress := none }],
    sites := [], projects := [], storeys := [] }

/-- A named building with no storey entities at all. -/
def c6NoStoreyFile : IfcFile :=
  { buildings := [{ longName := some "Empty Tower", name := none, description := none,
                    buildingAddress := none }],
    sites := [], projects := [], storeys := [] }

/-- A named building with three storeys at elevations 0.0, 3.5 and 7.0. -/
def c6StoreyFile : IfcFile :=
  { buildings := [{ longName := some "Storey House", name := none, description := none,
                    buildingAddress := none }],
    sites := [], projects := [],
    storeys := [{ elevation := some 0 }, { elevation := some (7 / 2) },
                { elevation := some 7 }] }

/-- A database holding one file row awaiting processing. -/
def sampleDb : Database :=
  { ifcFiles := [{ id := "file-9", processingStatus := "processing", errorMessage := none }],
    buildings := [], nextBuildingId := 1 }

/-- A metadata record as produced by the resolver. -/
def sampleMd : Metadata :=
  { name := some "Tower X", address := none, city := some "Rome", country := none,
    height := none, floorCount := some 3 }

theorem pyAccept_ne_empty {v : Option String} {bad : List String} {s : String}
    (h : pyAccept v bad = some s) : s ≠ "" := by
  rcases v with _ | t
  · simp [pyAccept] at h
  · by_cases hc : t ≠ "" ∧ t ∉ bad
    · have ht : some t = some s := by simpa [pyAccept, hc] using h
      cases ht
      exact hc.1
    · rw [show pyAccept (some t) bad = none from by simp [pyAccept, hc]] at h
      simp at h

theorem firstAcceptedName_ne_empty :
    ∀ (cs : List (Option String × List String)) (s : String),
      firstAcceptedName cs = some s → s ≠ "" := by
  intro cs
  induction cs with
  | nil => intro s h; exact absurd h (by simp [firstAcceptedName])
  | cons c rest ih =>
    intro s h
    rcases c with ⟨v, bad⟩
    unfold firstAcceptedName at h
    rcases hp : pyAccept v bad with _ | t
    · rw [hp] at h
      exact ih s h
    · rw [hp] at h
      cases h
      exact pyAccept_ne_empty hp

theorem firstAcceptedName_append (xs ys : List (Option String × List String)) :
    firstAcceptedName (xs ++ ys) =
      (firstAcceptedName xs).orElse (fun _ => firstAcceptedName ys) := by
  induction xs with
  | nil => simp [firstAcceptedName, Option.orElse]
  | cons c rest ih =>
    rcases c with ⟨v, bad⟩
    rw [List.cons_append]
    rcases hp : pyAccept v bad with _ | t
    · rw [show firstAcceptedName ((v, bad) :: (rest ++ ys)) = firstAcceptedName (rest ++ ys) from
            by simp [firstAcceptedName, hp],
          show firstAcceptedName ((v, bad) :: rest) = firstAcceptedName rest from
            by simp [firstAcceptedName, hp]]
      exact ih
    · rw [show firstAcceptedName ((v, bad) :: (rest ++ ys)) = some t from
            by simp [firstAcceptedName, hp],
          show firstAcceptedName ((v, bad) :: rest) = some t from
            by simp [firstAcceptedName, hp]]
      rfl

theorem pyFalsyStr_firstAcceptedName (cs : List (Option String × List String)) :
    pyFalsyStr (firstAcceptedName cs) = (firstAcceptedName cs).isNone := by
  rcases h : firstAcceptedName cs with _ | s
  · rfl
  · have := firstAcceptedName_ne_empty cs s h
    simp [pyFalsyStr, this]

theorem storeyStage_name (f : IfcFile) (md : Metadata) :
    (storeyStage f md).name = md.name := by
  unfold storeyStage
  cases f.storeys with
  | nil => rfl
  | cons a l => dsimp only; split <;> rfl

theorem storeyStage_addr (f : IfcFile) (md : Metadata) :
    addrTriple (storeyStage f md) = addrTriple md := by
  unfold storeyStage addrTriple
  cases f.storeys with
  | nil => rfl
  | cons a l => dsimp only; split <;> rfl

theorem filenameStage_name (p : String) (md : Metadata) :
    (filenameStage p md).name =
      if pyFalsyStr md.name then some (filenameFallbackName p) else md.name := by
  unfold filenameStage
  split <;> simp_all

theorem filenameStage_addr (p : String) (md : Metadata) :
    addrTriple (filenameStage p md) = addrTriple md := by
  unfold filenameStage addrTriple
  split <;> rfl

theorem projectStage_name (f : IfcFile) (md : Metadata) :
    (projectStage f md).name =
      if pyFalsyStr md.name then
        (firstAcceptedName (projectCandidates f)).orElse (fun _ => md.name)
      else md.name := by
  unfold projectStage projectCandidates
  by_cases hn : pyFalsyStr md.name = true
  · rw [if_pos hn, if_pos hn]
    cases f.projects with
    | nil => simp [firstAcceptedName, Option.orElse]
    | cons p ps =>
      dsimp only
      rcases h1 : pyAccept p.longName [] with _ | n
      · rcases h2 : pyAccept p.name ["Default", "default", "Project", ""] with _ | m
        · simp [firstAcceptedName, h1, h2, Option.orElse]
        · simp [firstAcceptedName, h1, h2, Option.orElse]
      · simp [firstAcceptedName, h1, Option.orElse]
  · rw [if_neg hn, if_neg hn]

theorem projectStage_addr (f : IfcFile) (md : Metadata) :
    addrTriple (projectStage f md) = addrTriple md := by
  unfold projectStage addrTriple
  by_cases hn : pyFalsyStr md.name = true
  · rw [if_pos hn]
    cases f.projects with
    | nil => rfl
    | cons p ps =>
      dsimp only
      rcases h1 : pyAccept p.longName [] with _ | n
      · rcases h2 : pyAccept p.name ["Default", "default", "Project", ""] with _ | m
        · simp [h1, h2]
        · simp [h1, h2]
      · simp [h1]
  · rw [if_neg hn]

theorem siteAddrBlock_name (s : IfcSite) (md : Metadata) :
    (siteAddrBlock s md).name = md.name := by
  unfold siteAddrBlock
  by_cases ha : pyFalsyStr md.address = true
  · rw [if_pos ha]
    rcases hs : s.siteAddress with _ | addr
    · simp
    · dsimp only
      rcases hj : joinAddressLines addr.addressLines with _ | x <;>
        rcases ht : pyAccept addr.town [] with _ | y <;>
          rcases hc : pyAccept addr.country [] with _ | z <;>
            by_cases hcy : pyFalsyStr md.city = true <;>
              by_cases hco : pyFalsyStr md.country = true <;>
                simp [hj, ht, hc, hcy, hco]
  · rw [if_neg ha]

theorem siteAddrBlock_addr (s : IfcSite) (md : Metadata) :
    addrTriple (siteAddrBlock s md) = siteFieldMergeOf (addrTriple md) s := by
  unfold siteAddrBlock siteFieldMergeOf addrTriple
  dsimp only
  by_cases ha : pyFalsyStr md.address = true
  · simp only [ha, if_true]
    rcases hs : s.siteAddress with _ | addr
    · simp
    · dsimp only
      rcases hj : joinAddressLines addr.addressLines with _ | x <;>
        rcases ht : pyAccept addr.town [] with _ | y <;>
          rcases hc : pyAccept addr.country [] with _ | z <;>
            by_cases hcy : pyFalsyStr md.city = true <;>
              by_cases hco : pyFalsyStr md.country = true <;>
                simp [hj, ht, hc, hcy, hco]
  · rw [Bool.not_eq_true] at ha
    simp [ha]

theorem siteAddrBlock_hf (s : IfcSite) (md : Metadata) :
    (siteAddrBlock s md).height = md.height ∧ (siteAddrBlock s md).floorCount = md.floorCount := by
  unfold siteAddrBlock
  by_cases ha : pyFalsyStr md.address = true
  · rw [if_pos ha]
    rcases hs : s.siteAddress with _ | addr
    · simp
    · dsimp only
      rcases hj : joinAddressLines addr.addressLines with _ | x <;>
        rcases ht : pyAccept addr.town [] with _ | y <;>
          rcases hc : pyAccept addr.country [] with _ | z <;>
            by_cases hcy : pyFalsyStr md.city = true <;>
              by_cases hco : pyFalsyStr md.country = true <;>
                simp [hj, ht, hc, hcy, hco]
  · rw [if_neg ha]; exact ⟨rfl, rfl⟩

theorem buildingAddrBlock_name (b : IfcBuilding) (md : Metadata) :
    (buildingAddrBlock b md).name = md.name := by
  unfold buildingAddrBlock
  rcases hb : b.buildingAddress with _ | a
  · rfl
  · dsimp only
    rcases hj : joinAddressLines a.addressLines with _ | x <;>
      rcases ht : pyAccept a.town [] with _ | y <;>
        rcases hc : pyAccept a.country [] with _ | z <;>
          simp [hj, ht, hc]

theorem buildingAddrBlock_hf (b : IfcBuilding) (md : Metadata) :
    (buildingAddrBlock b md).height = md.height ∧
      (buildingAddrBlock b md).floorCount = md.floorCount := by
  unfold buildingAddrBlock
  rcases hb : b.buildingAddress with _ | a
  · exact ⟨rfl, rfl⟩
  · dsimp only
    rcases hj : joinAddressLines a.addressLines with _ | x <;>
      rcases ht : pyAccept a.town [] with _ | y <;>
        rcases hc : pyAccept a.country [] with _ | z <;>
          simp [hj, ht, hc]

theorem buildingAddrBlock_addr (b : IfcBuilding) (md : Metadata)
    (h : addrTriple md = (none, none, none)) :
    addrTriple (buildingAddrBlock b md) = buildingAddrTripleOf b := by
  obtain ⟨h1, h2, h3⟩ : md.address = none ∧ md.city = none ∧ md.country = none := by
    simpa [addrTriple] using h
  unfold buildingAddrBlock buildingAddrTripleOf addrTriple
  rcases hb : b.buildingAddress with _ | a
  · simp [h1, h2, h3]
  · dsimp only
    rcases hj : joinAddressLines a.addressLines with _ | x <;>
      rcases ht : pyAccept a.town [] with _ | y <;>
        rcases hc : pyAccept a.country [] with _ | z <;>
          simp [hj, ht, hc, h1, h2, h3]

theorem buildingStage_name (f : IfcFile) (md : Metadata) :
    (buildingStage f md).name =
      (firstAcceptedName (buildingCandidates f)).orElse (fun _ => md.name) := by
  unfold buildingStage buildingCandidates
  cases f.buildings with
  | nil => simp [firstAcceptedName, Option.orElse]
  | cons b bs =>
    dsimp only
    rw [buildingAddrBlock_name]
    rcases h1 : pyAccept b.longName ["Default", "default", ""] with _ | n
    · rcases h2 : pyAccept b.name ["Default", "default", ""] with _ | m
      · rcases h3 : pyAccept b.description [] with _ | k <;>
          simp [firstAcceptedName, h1, h2, h3, Option.orElse]
      · simp [firstAcceptedName, h1, h2, Option.orElse]
    · simp [firstAcceptedName, h1, Option.orElse]

theorem buildingStage_addr (f : IfcFile) (md : Metadata)
    (h : addrTriple md = (none, none, none)) :
    addrTriple (buildingStage f md) = buildingAddrTriple f := by
  unfold buildingStage buildingAddrTriple
  cases f.buildings with
  | nil => exact h
  | cons b bs =>
    dsimp only
    refine buildingAddrBlock_addr b _ ?_
    rcases h1 : pyAccept b.longName ["Default", "default", ""] with _ | n
    · rcases h2 : pyAccept b.name ["Default", "default", ""] with _ | m
      · rcases h3 : pyAccept b.description [] with _ | k <;>
          simpa [addrTriple, h1, h2, h3] using h
      · simpa [addrTriple, h1, h2] using h
    · simpa [addrTriple, h1] using h

theorem buildingStage_hf (f : IfcFile) (md : Metadata) :
    (buildingStage f md).height = md.height ∧
      (buildingStage f md).floorCount = md.floorCount := by
  unfold buildingStage
  cases f.buildings with
  | nil => exact ⟨rfl, rfl⟩
  | cons b bs =>
    dsimp only
    refine ⟨((buildingAddrBlock_hf b _).1).trans ?_, ((buildingAddrBlock_hf b _).2).trans ?_⟩ <;>
      rcases h1 : pyAccept b.longName ["Default", "default", ""] with _ | n <;>
        rcases h2 : pyAccept b.name ["Default", "default", ""] with _ | m <;>
          rcases h3 : pyAccept b.description [] with _ | k <;>
            simp [h1, h2, h3]

theorem siteStage_name (f : IfcFile) (md : Metadata) :
    (siteStage f md).name =
      if pyFalsyStr md.name then
        (firstAcceptedName (siteCandidates f)).orElse (fun _ => md.name)
      else md.name := by
  unfold siteStage siteCandidates
  by_cases hn : pyFalsyStr md.name = true
  · rw [if_pos hn, if_pos hn]
    cases f.sites with
    | nil => simp [firstAcceptedName, Option.orElse]
    | cons s ss =>
      dsimp only
      rw [siteAddrBlock_name]
      rcases h1 : pyAccept s.longName ["Default", "default", "environment - site", ""] with _ | n
      · rcases h2 : pyAccept s.name
            ["Default", "default", "environment - site", "Site", ""] with _ | m
        · rcases h3 : pyAccept s.description [] with _ | k <;>
            simp [firstAcceptedName, h1, h2, h3, Option.orElse]
        · simp [firstAcceptedName, h1, h2, Option.orElse]
      · simp [firstAcceptedName, h1, Option.orElse]
  · rw [if_neg hn, if_neg hn]

theorem siteStage_addr (f : IfcFile) (md : Metadata) :
    addrTriple (siteStage f md) =
      if pyFalsyStr md.name then siteFieldMerge (addrTriple md) f else addrTriple md := by
  unfold siteStage siteFieldMerge
  by_cases hn : pyFalsyStr md.name = true
  · rw [if_pos hn, if_pos hn]
    cases f.sites with
    | nil => rfl
    | cons s ss =>
      dsimp only
      rw [siteAddrBlock_addr]
      have haddr : ∀ md' : Metadata, addrTriple md' = addrTriple md →
          siteFieldMergeOf (addrTriple md') s = siteFieldMergeOf (addrTriple md) s := by
        intro md' h
        rw [h]
      rcases h1 : pyAccept s.longName ["Default", "default", "environment - site", ""] with _ | n
      · rcases h2 : pyAccept s.name
            ["Default", "default", "environment - site", "Site", ""] with _ | m
        · rcases h3 : pyAccept s.description [] with _ | k <;>
            exact haddr _ (by simp [addrTriple])
        · exact haddr _ (by simp [addrTriple])
      · exact haddr _ (by simp [addrTriple])
  · rw [Bool.not_eq_true] at hn
    simp [hn]

theorem siteStage_hf (f : IfcFile) (md : Metadata) :
    (siteStage f md).height = md.height ∧ (siteStage f md).floorCount = md.floorCount := by
  unfold siteStage
  by_cases hn : pyFalsyStr md.name = true
  · rw [if_pos hn]
    cases f.sites with
    | nil => exact ⟨rfl, rfl⟩
    | cons s ss =>
      dsimp only
      refine ⟨((siteAddrBlock_hf s _).1).trans ?_, ((siteAddrBlock_hf s _).2).trans ?_⟩ <;>
        rcases h1 : pyAccept s.longName
            ["Default", "default", "environment - site", ""] with _ | n <;>
          rcases h2 : pyAccept s.name
              ["Default", "default", "environment - site", "Site", ""] with _ | m <;>
            rcases h3 : pyAccept s.description [] with _ | k <;>
              simp [h1, h2, h3]
  · rw [if_neg hn]; exact ⟨rfl, rfl⟩

theorem projectStage_hf (f : IfcFile) (md : Metadata) :
    (projectStage f md).height = md.height ∧
      (projectStage f md).floorCount = md.floorCount := by
  unfold projectStage
  by_cases hn : pyFalsyStr md.name = true
  · rw [if_pos hn]
    cases f.projects with
    | nil => exact ⟨rfl, rfl⟩
    | cons p ps =>
      dsimp only
      rcases h1 : pyAccept p.longName [] with _ | n <;>
        rcases h2 : pyAccept p.name ["Default", "default", "Project", ""] with _ | m <;>
          simp [h1, h2]
  · rw [if_neg hn]; exact ⟨rfl, rfl⟩

theorem filenameStage_hf (p : String) (md : Metadata) :
    (filenameStage p md).height = md.height ∧
      (filenameStage p md).floorCount = md.floorCount := by
  unfold filenameStage
  split <;> exact ⟨rfl, rfl⟩

theorem storeyStage_floorCount (f : IfcFile) (md : Metadata) :
    (storeyStage f md).floorCount =
      if f.storeys = [] then md.floorCount else some f.storeys.length := by
  unfold storeyStage
  cases f.storeys with
  | nil => simp
  | cons a l => dsimp only; split <;> simp

theorem storeyStage_height (f : IfcFile) (md : Metadata) :
    (storeyStage f md).height =
      if 2 ≤ (f.storeys.filterMap (fun s => s.elevation)).length then
        some (pyRound2 (listMax (f.storeys.filterMap (fun s => s.elevation)) -
                        listMin (f.storeys.filterMap (fun s => s.elevation))))
      else md.height := by
  unfold storeyStage
  cases hs : f.storeys with
  | nil => simp [hs]
  | cons a l =>
    dsimp only
    by_cases hlen :
        2 ≤ ((a :: l).filterMap (fun s : IfcStorey => s.elevation)).length
    · have hcond : (a :: l).filterMap (fun s : IfcStorey => s.elevation) ≠ [] ∧
          ((a :: l).filterMap (fun s : IfcStorey => s.elevation)).length > 1 := by
        constructor
        · intro hnil
          rw [hnil] at hlen
          simp at hlen
        · omega
      rw [if_pos hcond, if_pos hlen]
    · have hcond : ¬((a :: l).filterMap (fun s : IfcStorey => s.elevation) ≠ [] ∧
          ((a :: l).filterMap (fun s : IfcStorey => s.elevation)).length > 1) := by
        rintro ⟨h1, h2⟩
        exact hlen (by omega)
      rw [if_neg hcond, if_neg hlen]

theorem extract_name_characterization (f : IfcFile) (p : String) :
    (extract_metadata_from_ifc f p).name =
      some ((firstAcceptedName (nameCandidates f)).getD (filenameFallbackName p)) := by
  unfold extract_metadata_from_ifc nameCandidates
  rw [storeyStage_name, filenameStage_name, projectStage_name, siteStage_name,
      buildingStage_name, firstAcceptedName_append, firstAcceptedName_append]
  rcases hB : firstAcceptedName (buildingCandidates f) with _ | nb
  · rcases hS : firstAcceptedName (siteCandidates f) with _ | ns
    · rcases hP : firstAcceptedName (projectCandidates f) with _ | np
      · simp [hB, hS, hP, emptyMetadata, Option.orElse, pyFalsyStr]
      · have hne := firstAcceptedName_ne_empty _ np hP
        simp [hB, hS, hP, emptyMetadata, Option.orElse, pyFalsyStr, hne]
    · have hne := firstAcceptedName_ne_empty _ ns hS
      simp [hB, hS, emptyMetadata, Option.orElse, pyFalsyStr, hne]
  · have hne := firstAcceptedName_ne_empty _ nb hB
    simp [hB, emptyMetadata, Option.orElse, pyFalsyStr, hne]

theorem extract_addr_characterization (f : IfcFile) (p : String) :
    addrTriple (extract_metadata_from_ifc f p) = resolvedAddrTriple f := by
  unfold extract_metadata_from_ifc resolvedAddrTriple
  rw [storeyStage_addr, filenameStage_addr, projectStage_addr, siteStage_addr,
      buildingStage_addr f emptyMetadata rfl, buildingStage_name]
  rcases hB : firstAcceptedName (buildingCandidates f) with _ | nb
  · simp [hB, emptyMetadata, Option.orElse, pyFalsyStr]
  · have hne := firstAcceptedName_ne_empty _ nb hB
    simp [hB, emptyMetadata, Option.orElse, pyFalsyStr, hne]

theorem extract_floorCount_characterization (f : IfcFile) (p : String) :
    (extract_metadata_from_ifc f p).floorCount =
      if f.storeys = [] then none else some f.storeys.length := by
  unfold extract_metadata_from_ifc
  rw [storeyStage_floorCount,
      (filenameStage_hf p (projectStage f (siteStage f (buildingStage f emptyMetadata)))).2,
      (projectStage_hf f (siteStage f (buildingStage f emptyMetadata))).2,
      (siteStage_hf f (buildingStage f emptyMetadata)).2,
      (buildingStage_hf f emptyMetadata).2]
  rfl

theorem extract_height_characterization (f : IfcFile) (p : String) :
    (extract_metadata_from_ifc f p).height =
      if 2 ≤ (f.storeys.filterMap (fun s => s.elevation)).length then
        some (pyRound2 (listMax (f.storeys.filterMap (fun s => s.elevation)) -
                        listMin (f.storeys.filterMap (fun s => s.elevation))))
      else none := by
  unfold extract_metadata_from_ifc
  rw [storeyStage_height,
      (filenameStage_hf p (projectStage f (siteStage f (buildingStage f emptyMetadata)))).1,
      (projectStage_hf f (siteStage f (buildingStage f emptyMetadata))).1,
      (siteStage_hf f (buildingStage f emptyMetadata)).1,
      (buildingStage_hf f emptyMetadata).1]
  rfl

theorem convert_success_form (e : ConvEnv) (h : (convert_ifc_to_gltf e).1 = true) :
    convert_ifc_to_gltf e = (true, some e.outPath, none) := by
  unfold convert_ifc_to_gltf at h ⊢
  by_cases hi : e.inputExists = false
  · rw [if_pos hi] at h
    simp at h
  · rw [if_neg hi] at h ⊢
    rcases ho : e.openRaises with _ | m
    · rw [ho] at h
      dsimp only at h ⊢
      by_cases hu : _use_ifcconvert e.sub e.outputExists = true
      · rw [if_pos hu]
      · rw [if_neg hu] at h
        simp at h
    · rw [ho] at h
      simp at h

/-- C2: the claim's conversion formula (magnitude plus subsecond over
3.6e9, sign from degrees) and its round-trip values hold of the
processor service's `_to_decimal_degrees`, but the ifc-processor
pipeline's `_convert_to_decimal` divides the fourth component by 1000
and then 3600 (treating it as milliseconds), so on (41, 53, 24, 72000)
it returns 41.91, outside the claimed 1e-4 tolerance of 41.890020. -/
theorem C2_subsecond_divisor :
    (∀ d m s f : ℚ, _to_decimal_degrees (some (GeoAngle.seq [d, m, s, f])) =
        some (if d < 0 then -(|d| + m / 60 + s / 3600 + f / 3600000000)
              else |d| + m / 60 + s / 3600 + f / 3600000000)) ∧
    (∀ d m s : ℚ, _to_decimal_degrees (some (GeoAngle.seq [d, m, s])) =
        some (if d < 0 then -(|d| + m / 60 + s / 3600 + 0 / 3600000000)
              else |d| + m / 60 + s / 3600 + 0 / 3600000000)) ∧
    _to_decimal_degrees (some (GeoAngle.seq [41, 53, 24, 72000])) = some (4189002 / 100000) ∧
    |(4189002 / 100000 : ℚ) - 41890020 / 1000000| < 1 / 10000 ∧
    _to_decimal_degrees (some (GeoAngle.seq [-33, 51, 25, 0])) = some (-(24377 / 720)) ∧
    |(-(24377 / 720) : ℚ) - -(33856944 / 1000000)| < 1 / 10000 ∧
    _convert_to_decimal (GeoAngle.seq [41, 53, 24, 72000]) "latitude" = .ok (4191 / 100) ∧
    ¬|(4191 / 100 : ℚ) - 41890020 / 1000000| < 1 / 10000 := by
  refine ⟨?_, ?_, ?_, ?_, ?_, ?_, ?_, ?_⟩
  · intro d m s f
    simp [_to_decimal_degrees]
  · intro d m s
    simp [_to_decimal_degrees]
  · simp [_to_decimal_degrees]
    norm_num
  · norm_num
  · simp [_to_decimal_degrees]
    norm_num
  · rw [abs_sub_lt_iff]
    norm_num
  · simp [_convert_to_decimal]
    norm_num
  · rw [show ((4191 / 100 : ℚ) - 41890020 / 1000000) = 999 / 50000 by norm_num,
        abs_of_pos (by norm_num)]
    norm_num

/-- C8: after both angles are converted, the latitude range [-90, 90]
and then the longitude range [-180, 180] are validated with inclusive
bounds; any out-of-range value produces the out-of-range parser error
carrying the offending axis name and value. -/
theorem C8_joint_range_validation :
    (∀ lat lon : ℚ, -90 ≤ lat → lat ≤ 90 → -180 ≤ lon → lon ≤ 180 →
      extract_coordinates_from_ifc (mkCoordFile (.scalar lat) (.scalar lon)) = .ok (lat, lon)) ∧
    (∀ lat lon : ℚ, lat < -90 ∨ 90 < lat →
      extract_coordinates_from_ifc (mkCoordFile (.scalar lat) (.scalar lon)) =
        .error (.outOfRange "latitude" lat)) ∧
    (∀ lat lon : ℚ, -90 ≤ lat → lat ≤ 90 → (lon < -180 ∨ 180 < lon) →
      extract_coordinates_from_ifc (mkCoordFile (.scalar lat) (.scalar lon)) =
        .error (.outOfRange "longitude" lon)) := by
  refine ⟨?_, ?_, ?_⟩
  · intro lat lon h1 h2 h3 h4
    unfold extract_coordinates_from_ifc mkCoordFile
    dsimp only [_convert_to_decimal]
    rw [if_neg (not_not_intro ⟨h1, h2⟩), if_neg (not_not_intro ⟨h3, h4⟩)]
  · intro lat lon h
    unfold extract_coordinates_from_ifc mkCoordFile
    dsimp only [_convert_to_decimal]
    rw [if_pos]
    rintro ⟨ha, hb⟩
    rcases h with h | h
    · linarith
    · linarith
  · intro lat lon h1 h2 h
    unfold extract_coordinates_from_ifc mkCoordFile
    dsimp only [_convert_to_decimal]
    rw [if_neg (not_not_intro ⟨h1, h2⟩), if_pos]
    rintro ⟨ha, hb⟩
    rcases h with h | h
    · linarith
    · linarith

/-- Witness for C8 at the boundary and just-outside values named by the
claim. -/
theorem C8_joint_range_validation_witness :
    extract_coordinates_from_ifc (mkCoordFile (.scalar 90) (.scalar 0)) = .ok (90, 0) ∧
    extract_coordinates_from_ifc (mkCoordFile (.scalar (-90)) (.scalar 0)) = .ok (-90, 0) ∧
    extract_coordinates_from_ifc (mkCoordFile (.scalar 0) (.scalar 180)) = .ok (0, 180) ∧
    extract_coordinates_from_ifc (mkCoordFile (.scalar 0) (.scalar (-180))) = .ok (0, -180) ∧
    extract_coordinates_from_ifc (mkCoordFile (.scalar 91) (.scalar 0)) =
      .error (.outOfRange "latitude" 91) ∧
    extract_coordinates_from_ifc (mkCoordFile (.scalar (-91)) (.scalar 0)) =
      .error (.outOfRange "latitude" (-91)) ∧
    extract_coordinates_from_ifc (mkCoordFile (.scalar 0) (.scalar 181)) =
      .error (.outOfRange "longitude" 181) ∧
    extract_coordinates_from_ifc (mkCoordFile (.scalar 0) (.scalar (-181))) =
      .error (.outOfRange "longitude" (-181)) :=
  ⟨C8_joint_range_validation.1 90 0 (by norm_num) (by norm_num) (by norm_num) (by norm_num),
   C8_joint_range_validation.1 (-90) 0 (by norm_num) (by norm_num) (by norm_num) (by norm_num),
   C8_joint_range_validation.1 0 180 (by norm_num) (by norm_num) (by norm_num) (by norm_num),
   C8_joint_range_validation.1 0 (-180) (by norm_num) (by norm_num) (by norm_num) (by norm_num),
   C8_joint_range_validation.2.1 91 0 (Or.inr (by norm_num)),
   C8_joint_range_validation.2.1 (-91) 0 (Or.inl (by norm_num)),
   C8_joint_range_validation.2.2 0 181 (by norm_num) (by norm_num) (Or.inr (by norm_num)),
   C8_joint_range_validation.2.2 0 (-181) (by norm_num) (by norm_num) (Or.inl (by norm_num))⟩

/-- C6 counterexample: with zero building-storey entities the parser
leaves floorCount None rather than setting it to 0. -/
theorem C6_counterexample :
    (extract_metadata_from_ifc c6NoStoreyFile "/tmp/c6a.ifc").floorCount = none ∧
    (extract_metadata_from_ifc c6NoStoreyFile "/tmp/c6a.ifc").floorCount ≠ some 0 := by
  constructor <;> simp [extract_floorCount_characterization, c6NoStoreyFile]

/-- C6 amended: floorCount is the storey count only when at least one
storey exists (absent otherwise); the height is the max-min elevation
spread rounded to two decimals, exactly when at least two storeys have
a non-None elevation (0.0 counting as known); elevations 0.0/3.5/7.0
give height 7.0 and floorCount 3. -/
theorem C6_floor_height_amended :
    (∀ (f : IfcFile) (p : String),
      (extract_metadata_from_ifc f p).floorCount =
        (if f.storeys = [] then none else some f.storeys.length) ∧
      (extract_metadata_from_ifc f p).height =
        (if 2 ≤ (f.storeys.filterMap (fun s => s.elevation)).length then
          some (pyRound2 (listMax (f.storeys.filterMap (fun s => s.elevation)) -
                          listMin (f.storeys.filterMap (fun s => s.elevation))))
         else none)) ∧
    (extract_metadata_from_ifc c6StoreyFile "/tmp/c6b.ifc").height = some 7 ∧
    (extract_metadata_from_ifc c6StoreyFile "/tmp/c6b.ifc").floorCount = some 3 := by
  refine ⟨fun f p =>
    ⟨extract_floorCount_characterization f p, extract_height_characterization f p⟩, ?_, ?_⟩
  · rw [extract_height_characterization]
    have hfm : c6StoreyFile.storeys.filterMap (fun s => s.elevation) = [0, 7 / 2, 7] := by
      simp [c6StoreyFile]
    rw [hfm]
    have hmax : listMax [0, 7 / 2, (7 : ℚ)] = 7 := by
      unfold listMax
      simp [List.foldl]
    have hmin : listMin [0, 7 / 2, (7 : ℚ)] = 0 := by
      unfold listMin
      simp [List.foldl]
      norm_num
    rw [if_pos (by norm_num), hmax, hmin,
        show (7 : ℚ) - 0 = 7 by norm_num]
    unfold pyRound2 roundHalfEven
    norm_num
  · rw [extract_floorCount_characterization]
    simp [c6StoreyFile]

/-- C7 counterexample: the placeholder filter lists are matched
case-sensitively, so the long name DEFAULT — the placeholder word in
upper case — is accepted as the building name instead of being skipped
in favor of the short name Tower X. -/
theorem C7_counterexample :
    (extract_metadata_from_ifc c7UppercaseDefaultFile "/tmp/c7a.ifc").name = some "DEFAULT" ∧
    (extract_metadata_from_ifc c7UppercaseDefaultFile "/tmp/c7a.ifc").name ≠ some "Tower X" ∧
    ("DEFAULT" : String) ≠ "Default" ∧ ("DEFAULT" : String) ≠ "default" := by
  refine ⟨?_, ?_, by decide, by decide⟩ <;>
    simp [extract_name_characterization, nameCandidates, buildingCandidates, siteCandidates,
          projectCandidates, firstAcceptedName, pyAccept, c7UppercaseDefaultFile]

/-- C7 amended: the resolved name is the first candidate, scanning
Building long/short/description, then Site, then Project, that is
non-empty and not in that level's literal, case-sensitively matched
placeholder list (no list at all for descriptions and the Project long
name), with the filename-derived fallback when no candidate is
accepted; a Building with long name Default and short name Tower X
resolves to Tower X. -/
theorem C7_name_priority_amended :
    (∀ (f : IfcFile) (p : String),
      (extract_metadata_from_ifc f p).name =
        some ((firstAcceptedName (nameCandidates f)).getD (filenameFallbackName p))) ∧
    (extract_metadata_from_ifc c7TowerFile "/tmp/c7b.ifc").name = some "Tower X" := by
  refine ⟨extract_name_characterization, ?_⟩
  rw [extract_name_characterization]
  simp [c7TowerFile, nameCandidates, buildingCandidates, siteCandidates,
        projectCandidates, firstAcceptedName, pyAccept]

/-- C5 counterexample: the Building supplies the name Tower X and has
no postal address, and the Site carries a full postal address; the
claim requires the three address fields to fall back to the Site
record, but the parser leaves all three empty because the Site block
only runs when the Building yielded no name. -/
theorem C5_counterexample :
    (extract_metadata_from_ifc c5NamedBuildingFile "/tmp/c5a.ifc").name = some "Tower X" ∧
    (extract_metadata_from_ifc c5NamedBuildingFile "/tmp/c5a.ifc").address = none ∧
    (extract_metadata_from_ifc c5NamedBuildingFile "/tmp/c5a.ifc").city = none ∧
    (extract_metadata_from_ifc c5NamedBuildingFile "/tmp/c5a.ifc").country = none := by
  have h := extract_addr_characterization c5NamedBuildingFile "/tmp/c5a.ifc"
  rw [show resolvedAddrTriple c5NamedBuildingFile = (none, none, none) from by
        simp [resolvedAddrTriple, c5NamedBuildingFile, buildingAddrTriple,
              buildingAddrTripleOf, buildingCandidates, firstAcceptedName, pyAccept,
              pyFalsyStr]] at h
  simp only [addrTriple, Prod.mk.injEq] at h
  refine ⟨?_, h.1, h.2.1, h.2.2⟩
  simp [extract_name_characterization, nameCandidates, buildingCandidates, siteCandidates,
        projectCandidates, firstAcceptedName, pyAccept, c5NamedBuildingFile]

/-- C5 amended: address, city and country come from the Building's
postal address sub-record when one is present; the Site's postal
address is consulted only when the Building contributed no name, and
then field by field — the whole sub-block only while the address is
still unset, city and country each only while still unset — so one
record can mix fields of the two entities; concretely, c5MergeFile
resolves to city Rome from the Building and country Italy from the
Site. -/
theorem C5_address_resolution_amended :
    (∀ (f : IfcFile) (p : String),
      addrTriple (extract_metadata_from_ifc f p) = resolvedAddrTriple f) ∧
    addrTriple (extract_metadata_from_ifc c5MergeFile "/tmp/c5b.ifc") =
      (none, some "Rome", some "Italy") := by
  refine ⟨extract_addr_characterization, ?_⟩
  rw [extract_addr_characterization]
  simp [resolvedAddrTriple, c5MergeFile, buildingAddrTriple, buildingAddrTripleOf,
        buildingCandidates, firstAcceptedName, pyAccept, pyFalsyStr, siteFieldMerge,
        siteFieldMergeOf, joinAddressLines]

/-- C1 counterexample: a retrieval failure with AccessDenied marks the
file failed and then raises self.retry with a 60-second countdown — the
attempt does not terminate in the Failed state without a retry. -/
theorem C1_counterexample :
    process_ifc_file "file-1" "key-1" taskEnvAccessDenied =
      { outcome := .retry (.s3Error (.accessDenied "key-1")) 60,
        markedFailed := some ("S3 download error: " ++ s3ErrMsg (.accessDenied "key-1")),
        convStep := none } ∧
    ∀ msg, (process_ifc_file "file-1" "key-1" taskEnvAccessDenied).outcome ≠
      TaskOutcome.failedResult "file-1" msg := by
  constructor
  · rfl
  · intro msg
    simp [process_ifc_file, taskEnvAccessDenied, download_file_from_s3]

/-- C1 amended: a retrieval failure of any kind (NotFound, AccessDenied
or any other S3 error) persists the failure message and schedules a
retry with countdown 60, under the task's max_retries = 3 and
default_retry_delay = 60; no retrieval failure terminates as Failed
without a retry being raised. -/
theorem C1_retry_on_any_retrieval_failure :
    ∀ (fileId s3Key : String) (env : TaskEnv) (e : S3Err),
      download_file_from_s3 env.download s3Key = .error e →
      process_ifc_file fileId s3Key env =
        { outcome := .retry (.s3Error e) 60,
          markedFailed := some ("S3 download error: " ++ s3ErrMsg e),
          convStep := none } ∧
      process_ifc_file_max_retries = 3 ∧
      process_ifc_file_default_retry_delay = 60 := by
  intro fid key env e h
  refine ⟨?_, rfl, rfl⟩
  unfold process_ifc_file
  rw [h]

/-- Witness for the amended C1 at a NoSuchKey failure. -/
theorem C1_retry_on_any_retrieval_failure_witness :
    process_ifc_file "file-2" "key-2" taskEnvNotFound =
      { outcome := .retry (.s3Error (.fileNotFound "key-2")) 60,
        markedFailed := some ("S3 download error: " ++ s3ErrMsg (.fileNotFound "key-2")),
        convStep := none } :=
  (C1_retry_on_any_retrieval_failure "file-2" "key-2" taskEnvNotFound
    (.fileNotFound "key-2") rfl).1

/-- C3: the Step-5 call passes the keyword arguments model_url,
model_size_mb and model_format, none of which the signature of
update_processing_result accepts, so whenever download and coordinate
extraction succeed the call raises TypeError, the catch-all handler
marks the file failed and retries, and no execution of the task returns
the completed result. -/
theorem C3_db_update_call_type_error :
    unexpectedDbCallKwargs = ["model_url", "model_size_mb", "model_format"] ∧
    (∀ (fileId s3Key : String) (env : TaskEnv) (lat lon : ℚ),
      download_file_from_s3 env.download s3Key = .ok () →
      extract_coordinates_from_ifc env.file = .ok (lat, lon) →
      process_ifc_file fileId s3Key env =
        { outcome := .retry (.typeError dbCallTypeErrorMsg) 60,
          markedFailed := some ("Unexpected error: " ++ dbCallTypeErrorMsg),
          convStep := some (conversionStep fileId env.conv) }) ∧
    (∀ (fileId s3Key : String) (env : TaskEnv),
      (process_ifc_file fileId s3Key env).outcome.isCompleted = false) := by
  have hkw : unexpectedDbCallKwargs = ["model_url", "model_size_mb", "model_format"] := rfl
  refine ⟨hkw, ?_, ?_⟩
  · intro fid key env lat lon hdl hext
    unfold process_ifc_file
    rw [hdl, hext]
    dsimp only
    rw [if_pos (by rw [hkw]; simp)]
  · intro fid key env
    unfold process_ifc_file
    rcases hd : download_file_from_s3 env.download key with e | u
    · simp [TaskOutcome.isCompleted]
    · rcases he : extract_coordinates_from_ifc env.file with pe | ll
      · simp [TaskOutcome.isCompleted]
      · rcases ll with ⟨lat, lon⟩
        dsimp only
        rw [if_pos (by rw [hkw]; simp)]
        simp [TaskOutcome.isCompleted]

/-- Witness for C3 at an attempt whose collaborators all succeed. -/
theorem C3_db_update_call_type_error_witness :
    process_ifc_file "file-3" "key-3" taskEnvConvOk =
      { outcome := .retry (.typeError dbCallTypeErrorMsg) 60,
        markedFailed := some ("Unexpected error: " ++ dbCallTypeErrorMsg),
        convStep := some (conversionStep "file-3" convOkEnv) } :=
  C3_db_update_call_type_error.2.1 "file-3" "key-3" taskEnvConvOk 45 7 rfl (by
    show extract_coordinates_from_ifc sampleCoordFile = .ok (45, 7)
    unfold sampleCoordFile mkCoordFile extract_coordinates_from_ifc
    dsimp only [_convert_to_decimal]
    rw [if_neg (not_not_intro (by norm_num)), if_neg (not_not_intro (by norm_num))])

/-- C4: evaluated at an attempt where everything succeeds except that
the conversion tool is not installed — the conversion degrades to a
False triple without raising, the pipeline proceeds to the persistence
step with no artifact reference, but the attempt still cannot produce
the completed result: the persistence call itself raises TypeError (the
keyword-argument mismatch of C3), the file is marked failed and the
task retries. -/
theorem C4_tool_missing_attempt_eval :
    convert_ifc_to_gltf convToolMissingEnv = (false, none, some "IfcConvert failed") ∧
    conversionStep "file-4" convToolMissingEnv =
      { modelUrl := none, modelSizeMb := none, modelFormat := none, gltfUnlinked := false } ∧
    process_ifc_file "file-4" "key-4" taskEnvToolMissing =
      { outcome := .retry (.typeError dbCallTypeErrorMsg) 60,
        markedFailed := some ("Unexpected error: " ++ dbCallTypeErrorMsg),
        convStep := some { modelUrl := none, modelSizeMb := none, modelFormat := none,
                           gltfUnlinked := false } } ∧
    (process_ifc_file "file-4" "key-4" taskEnvToolMissing).outcome.isCompleted = false := by
  have hext : extract_coordinates_from_ifc sampleCoordFile = .ok (45, 7) := by
    unfold sampleCoordFile mkCoordFile extract_coordinates_from_ifc
    dsimp only [_convert_to_decimal]
    rw [if_neg (not_not_intro (by norm_num)), if_neg (not_not_intro (by norm_num))]
  have hrun : process_ifc_file "file-4" "key-4" taskEnvToolMissing =
      { outcome := .retry (.typeError dbCallTypeErrorMsg) 60,
        markedFailed := some ("Unexpected error: " ++ dbCallTypeErrorMsg),
        convStep := some { modelUrl := none, modelSizeMb := none, modelFormat := none,
                           gltfUnlinked := false } } := by
    unfold process_ifc_file taskEnvToolMissing
    dsimp only
    rw [show download_file_from_s3 DownloadBehavior.ok "key-4" = .ok () from rfl, hext]
    dsimp only
    rw [if_pos (by
      rw [show unexpectedDbCallKwargs = ["model_url", "model_size_mb", "model_format"]
        from rfl]
      simp)]
    rfl
  refine ⟨rfl, rfl, hrun, ?_⟩
  rw [hrun]
  rfl

/-- C10 counterexample: a successful conversion followed by a failing
upload leaves the local artifact file in place — os.unlink is never
reached — while the claim requires deletion regardless of upload
outcome. -/
theorem C10_counterexample :
    convert_ifc_to_gltf convUploadFailEnv = (true, some "/tmp/out.glb", none) ∧
    (conversionStep "file-10" convUploadFailEnv).gltfUnlinked = false ∧
    (conversionStep "file-10" convUploadFailEnv).modelUrl = none := by
  refine ⟨rfl, rfl, rfl⟩

/-- C10 amended: on a successful conversion the local artifact is
deleted only when the upload succeeds; when the upload raises, the
step-local handler swallows the error, no model URL is recorded, and
the local artifact file is not deleted. -/
theorem C10_unlink_only_after_upload :
    ∀ (fileId : String) (e : ConvEnv),
      (convert_ifc_to_gltf e).1 = true →
      ((e.uploadErr = none → (conversionStep fileId e).gltfUnlinked = true) ∧
       (∀ err : S3Err, e.uploadErr = some err →
          (conversionStep fileId e).gltfUnlinked = false ∧
          (conversionStep fileId e).modelUrl = none)) := by
  intro fid e h
  have hc := convert_success_form e h
  unfold conversionStep
  rw [hc]
  dsimp only
  constructor
  · intro hu
    rw [hu]
  · intro err hu
    rw [hu]
    exact ⟨rfl, rfl⟩

/-- Witness for the amended C10 on the successful-upload and
failing-upload environments. -/
theorem C10_unlink_only_after_upload_witness :
    (conversionStep "file-11" convOkEnv).gltfUnlinked = true ∧
    (conversionStep "file-12" convUploadFailEnv).gltfUnlinked = false ∧
    (conversionStep "file-12" convUploadFailEnv).modelUrl = none :=
  ⟨(C10_unlink_only_after_upload "file-11" convOkEnv rfl).1 rfl,
   ((C10_unlink_only_after_upload "file-12" convUploadFailEnv rfl).2
     (.uploadFailed "connection reset") rfl).1,
   ((C10_unlink_only_after_upload "file-12" convUploadFailEnv rfl).2
     (.uploadFailed "connection reset") rfl).2⟩

/-- C9: with no injected database failure the persister marks the
matching file row completed and appends exactly one building row whose
point stores longitude as the first coordinate and latitude as the
second with SRID 4326, the INSERT returning the generated building id;
with a failure injected at any call the transaction is rolled back —
the durable database is unchanged — and DatabaseError is surfaced; the
connection ends released on every path. -/
theorem C9_persist_success_transactional :
    ∀ (failAt : Option DbFailPoint) (db : Database) (fileId : String) (lat lon : ℚ)
      (md : Metadata),
      (failAt = none →
        (update_processing_result failAt db fileId lat lon md).res = .ok () ∧
        (update_processing_result failAt db fileId lat lon md).finalDb.ifcFiles =
          db.ifcFiles.map (markFileCompleted fileId) ∧
        (update_processing_result failAt db fileId lat lon md).finalDb.buildings =
          db.buildings ++
            [{ id := db.nextBuildingId, ifcFileId := fileId,
               name := md.name.getD "Unknown Building", address := md.address,
               city := md.city, country := md.country, height := md.height,
               floorCount := md.floorCount, pointX := lon, pointY := lat, srid := 4326 }] ∧
        (update_processing_result failAt db fileId lat lon md).fetchedBuildingId =
          some db.nextBuildingId) ∧
      (∀ fp : DbFailPoint, failAt = some fp →
        (∃ m, (update_processing_result failAt db fileId lat lon md).res = .error m) ∧
        (update_processing_result failAt db fileId lat lon md).finalDb = db) ∧
      (update_processing_result failAt db fileId lat lon md).connReleased = true := by
  intro failAt db fid lat lon md
  refine ⟨?_, ?_, ?_⟩
  · intro h
    subst h
    unfold update_processing_result
    simp [execMarkCompleted, execInsertBuilding, connCommit, connRollback, connClose,
          mkBuildingRow]
  · intro fp h
    subst h
    unfold update_processing_result
    cases fp <;>
      simp [execMarkCompleted, execInsertBuilding, connCommit, connRollback, connClose]
  · unfold update_processing_result
    rcases failAt with _ | fp
    · simp [execMarkCompleted, execInsertBuilding, connCommit, connRollback, connClose]
    · cases fp <;>
        simp [execMarkCompleted, execInsertBuilding, connCommit, connRollback, connClose]

/-- Witness for C9 on a one-row database, at the no-failure run and at
a commit-time failure. -/
theorem C9_persist_success_transactional_witness :
    (update_processing_result none sampleDb "file-9" 45 7 sampleMd).res = .ok () ∧
    (update_processing_result none sampleDb "file-9" 45 7 sampleMd).fetchedBuildingId =
      some sampleDb.nextBuildingId ∧
    (update_processing_result (some .commit) sampleDb "file-9" 45 7 sampleMd).finalDb =
      sampleDb ∧
    (update_processing_result (some .commit) sampleDb "file-9" 45 7 sampleMd).connReleased =
      true :=
  ⟨((C9_persist_success_transactional none sampleDb "file-9" 45 7 sampleMd).1 rfl).1,
   ((C9_persist_success_transactional none sampleDb "file-9" 45 7 sampleMd).1 rfl).2.2.2,
   (((C9_persist_success_transactional (some .commit) sampleDb "file-9" 45 7 sampleMd).2.1)
     .commit rfl).2,
   (C9_persist_success_transactional (some .commit) sampleDb "file-9" 45 7 sampleMd).2.2⟩
